import Mathlib

/-!
# Verification of the roastcoffea metrics-aggregation pipeline

Shallow embedding of the aggregation functions of the `roastcoffea`
repository (workflow, efficiency, fine span metrics, chunk info, the
`get_nested` utility, the `MetricsAggregator` and the `MetricsCollector`
exit path), together with theorems settling the specification claims.

Python numbers (ints and floats) are modelled as exact rationals `ℚ`;
Python `dict`s are modelled either as typed records with `Option` fields
(`d.get(k)` returning `None` for an absent key becomes a `none` field) or
as association lists, depending on how the source accesses them.  A value
of a numeric field that is present but not a number would make the Python
source raise; the embedding coerces such values with a default, applied
uniformly on both sides of every correspondence.
-/

/-! ## Workflow metrics (src/roastcoffea/aggregation/workflow.py) -/

/-- The `performance_counters` sub-dict of a dataset entry. -/
structure PerfCounters where
  num_requested_bytes : Option ℚ
deriving DecidableEq

/-- A dataset entry of the combined report: the fields read by
`aggregate_workflow_metrics` (`performance_counters`, `entries`,
`duration`), each optional as in `dict.get`. -/
structure DatasetData where
  performance_counters : Option PerfCounters
  entries : Option ℚ
  duration : Option ℚ
deriving DecidableEq

/-- A value of the combined report dict: either a dict (a dataset entry)
or any non-dict value, which the source skips via `isinstance`. -/
inductive DatasetEntry where
  | dictEntry (d : DatasetData)
  | nonDict
deriving DecidableEq

/-- The fields of the coffea report read by `aggregate_workflow_metrics`:
`chunks`, `entries`, `processtime`, `bytesread` (presence of `bytesread`
selects the fallback branch). -/
structure CoffeaReport where
  chunks : Option ℚ
  entries : Option ℚ
  processtime : Option ℚ
  bytesread : Option ℚ
deriving DecidableEq

/-- The dict returned by `aggregate_workflow_metrics`. -/
structure WorkflowMetrics where
  overall_rate_gbps : ℚ
  overall_rate_mbps : ℚ
  compression_ratio : Option ℚ
  total_events : ℚ
  event_rate_wall_khz : ℚ
  event_rate_agg_khz : ℚ
  wall_time : ℚ
  total_cpu_time : ℚ
  num_chunks : ℚ
  avg_cpu_time_per_chunk : ℚ
  total_bytes_compressed : ℚ
  total_bytes_uncompressed : Option ℚ
deriving DecidableEq

/-- Model of `dataset_data.get("performance_counters", {}).get("num_requested_bytes", 0)`
(source lines 70-71): an absent `performance_counters` behaves as the empty
dict, whose `get` yields the default `0`. -/
def datasetBytes (d : DatasetData) : ℚ :=
  match d.performance_counters with
  | some pc => pc.num_requested_bytes.getD 0
  | none => 0

/-- The `combined_report` dict of `aggregate_workflow_metrics` (source
lines 44-57): the custom metrics when truthy (present and non-empty),
otherwise a single `"total"` entry built from the coffea report when
`"bytesread"` is present, otherwise empty. -/
def combinedReport (coffea_report : CoffeaReport) (wall_time : ℚ)
    (custom_metrics : Option (List (String × DatasetEntry))) :
    List (String × DatasetEntry) :=
  let fallback : List (String × DatasetEntry) :=
    match coffea_report.bytesread with
    | some b =>
        [("total", DatasetEntry.dictEntry
          { performance_counters := some { num_requested_bytes := some b }
            entries := some (coffea_report.entries.getD 0)
            duration := some (coffea_report.processtime.getD wall_time) })]
    | none => []
  match custom_metrics with
  | some l => if l.isEmpty then fallback else l
  | none => fallback

/-- The accumulation loop of `aggregate_workflow_metrics` (source lines
64-75): folds `(total_bytes_compressed, total_events, total_cpu_time)`
over the combined report, skipping non-dict values. -/
def sumEntries (l : List (String × DatasetEntry)) : ℚ × ℚ × ℚ :=
  l.foldl
    (fun acc p =>
      match p.2 with
      | DatasetEntry.nonDict => acc
      | DatasetEntry.dictEntry d =>
          (acc.1 + datasetBytes d, acc.2.1 + d.entries.getD 0,
            acc.2.2 + d.duration.getD 0))
    (0, 0, 0)

/-- Source: `aggregate_workflow_metrics` (source lines 12-117), field by field. -/
def aggregate_workflow_metrics (coffea_report : CoffeaReport)
    (t_start t_end : ℚ)
    (custom_metrics : Option (List (String × DatasetEntry))) :
    WorkflowMetrics :=
  let wall_time := t_end - t_start
  let num_chunks := coffea_report.chunks.getD 0
  let totals := sumEntries (combinedReport coffea_report wall_time custom_metrics)
  let total_bytes_compressed := totals.1
  let total_events := totals.2.1
  let total_cpu_time := totals.2.2
  { overall_rate_gbps :=
      if wall_time > 0 then (total_bytes_compressed * 8 / 1000000000) / wall_time else 0
    overall_rate_mbps :=
      if wall_time > 0 then (total_bytes_compressed / 1000000) / wall_time else 0
    compression_ratio := none
    total_events := total_events
    event_rate_wall_khz :=
      if wall_time > 0 then (total_events / wall_time) / 1000 else 0
    event_rate_agg_khz :=
      if total_cpu_time > 0 then (total_events / total_cpu_time) / 1000 else 0
    wall_time := wall_time
    total_cpu_time := total_cpu_time
    num_chunks := num_chunks
    avg_cpu_time_per_chunk :=
      if num_chunks > 0 then total_cpu_time / num_chunks else 0
    total_bytes_compressed := total_bytes_compressed
    total_bytes_uncompressed := none }

/-! ## Efficiency metrics (src/roastcoffea/aggregation/efficiency.py) -/

/-- The fields `calculate_efficiency_metrics` reads from its
`workflow_metrics` argument via `dict.get(key, 0)`. -/
structure EffWorkflowInput where
  wall_time : Option ℚ
  total_cpu_time : Option ℚ
  total_events : Option ℚ
deriving DecidableEq

/-- The field `calculate_efficiency_metrics` reads from its
`worker_metrics` argument: `worker_metrics.get("total_cores")`, `none`
both for an absent key and for a present `None`. -/
structure WorkerMetrics where
  total_cores : Option ℚ
deriving DecidableEq

/-- The dict returned by `calculate_efficiency_metrics`. -/
structure EfficiencyMetrics where
  core_efficiency : Option ℚ
  speedup_factor : ℚ
  event_rate_core_hz : Option ℚ
deriving DecidableEq

/-- Source: `calculate_efficiency_metrics` (source lines 12-61). -/
def calculate_efficiency_metrics (workflow_metrics : EffWorkflowInput)
    (worker_metrics : WorkerMetrics) : EfficiencyMetrics :=
  let wall_time := workflow_metrics.wall_time.getD 0
  let total_cpu_time := workflow_metrics.total_cpu_time.getD 0
  let total_events := workflow_metrics.total_events.getD 0
  let total_cores := worker_metrics.total_cores
  let core_efficiency : Option ℚ :=
    match total_cores with
    | none => none
    | some tc =>
        if wall_time > 0 then
          let total_available_time := tc * wall_time
          some (if total_available_time > 0
            then total_cpu_time / total_available_time else 0)
        else some 0
  let speedup_factor := if wall_time > 0 then total_cpu_time / wall_time else 0
  let event_rate_core_hz : Option ℚ :=
    match total_cores with
    | none => none
    | some tc =>
        if wall_time > 0 then some (total_events / (wall_time * tc))
        else some 0
  { core_efficiency := core_efficiency
    speedup_factor := speedup_factor
    event_rate_core_hz := event_rate_core_hz }

/-! ## Fine span metrics (src/roastcoffea/aggregation/fine_metrics.py) -/

/-- A key of `cumulative_worker_metrics`: a tuple of strings
(`('execute', task_prefix, activity, unit)`-shaped) or any non-tuple key,
which both loops skip. -/
inductive SpanKey where
  | tup (elems : List String)
  | nontup
deriving DecidableEq

/-- The accumulator of the `parse_fine_metrics` loop (source lines 42-49). -/
structure FineAcc where
  cpu_time : ℚ
  io_time : ℚ
  disk_read : ℚ
  disk_write : ℚ
  decompress_time : ℚ
  compress_time : ℚ
  deserialize_time : ℚ
  serialize_time : ℚ
deriving DecidableEq

/-- One iteration of the `parse_fine_metrics` loop (source lines 51-74):
skip non-tuples and tuples of length < 3, dispatch on `key[2]`. -/
def fineStep (acc : FineAcc) (kv : SpanKey × ℚ) : FineAcc :=
  match kv.1 with
  | SpanKey.nontup => acc
  | SpanKey.tup elems =>
      if elems.length < 3 then acc
      else
        match elems.getD 2 "" with
        | "thread-cpu" => { acc with cpu_time := acc.cpu_time + kv.2 }
        | "thread-noncpu" => { acc with io_time := acc.io_time + kv.2 }
        | "disk-read" => { acc with disk_read := acc.disk_read + kv.2 }
        | "disk-write" => { acc with disk_write := acc.disk_write + kv.2 }
        | "decompress" => { acc with decompress_time := acc.decompress_time + kv.2 }
        | "compress" => { acc with compress_time := acc.compress_time + kv.2 }
        | "deserialize" => { acc with deserialize_time := acc.deserialize_time + kv.2 }
        | "serialize" => { acc with serialize_time := acc.serialize_time + kv.2 }
        | _ => acc

/-- The dict returned by `parse_fine_metrics`. -/
structure FineMetrics where
  cpu_time_seconds : ℚ
  io_time_seconds : ℚ
  cpu_percentage : ℚ
  io_percentage : ℚ
  disk_read_bytes : ℚ
  disk_write_bytes : ℚ
  decompression_time_seconds : ℚ
  compression_time_seconds : ℚ
  total_compression_overhead_seconds : ℚ
  deserialization_time_seconds : ℚ
  serialization_time_seconds : ℚ
  total_serialization_overhead_seconds : ℚ
deriving DecidableEq

/-- Source: `parse_fine_metrics` (source lines 12-102). -/
def parse_fine_metrics (cumulative_worker_metrics : List (SpanKey × ℚ)) :
    FineMetrics :=
  let acc := cumulative_worker_metrics.foldl fineStep ⟨0, 0, 0, 0, 0, 0, 0, 0⟩
  let total_time := acc.cpu_time + acc.io_time
  { cpu_time_seconds := acc.cpu_time
    io_time_seconds := acc.io_time
    cpu_percentage := if total_time > 0 then acc.cpu_time / total_time * 100 else 0
    io_percentage := if total_time > 0 then acc.io_time / total_time * 100 else 0
    disk_read_bytes := acc.disk_read
    disk_write_bytes := acc.disk_write
    decompression_time_seconds := acc.decompress_time
    compression_time_seconds := acc.compress_time
    total_compression_overhead_seconds := acc.compress_time + acc.decompress_time
    deserialization_time_seconds := acc.deserialize_time
    serialization_time_seconds := acc.serialize_time
    total_serialization_overhead_seconds := acc.serialize_time + acc.deserialize_time }

/-- The accumulation loop of `calculate_compression_from_spans` (source
lines 131-144): sums `disk-read`/`memory-read` values for tuple keys of
length at least 3 whose `key[3]` (when the tuple has one) is `"bytes"`. -/
def compressionSums (cumulative_worker_metrics : List (SpanKey × ℚ)) : ℚ × ℚ :=
  cumulative_worker_metrics.foldl
    (fun acc kv =>
      match kv.1 with
      | SpanKey.nontup => acc
      | SpanKey.tup elems =>
          if elems.length < 3 then acc
          else
            let activity := elems.getD 2 ""
            let unitOk := elems.length ≥ 4 ∧ elems.getD 3 "" = "bytes"
            if activity = "disk-read" ∧ unitOk then (acc.1 + kv.2, acc.2)
            else if activity = "memory-read" ∧ unitOk then (acc.1, acc.2 + kv.2)
            else acc)
    (0, 0)

/-- Model of `uncompressed_bytes` of `calculate_compression_from_spans` (source
line 147): disk-read bytes when positive, else memory-read bytes. -/
def uncompressedBytes (cumulative_worker_metrics : List (SpanKey × ℚ)) : ℚ :=
  let sums := compressionSums cumulative_worker_metrics
  if sums.1 > 0 then sums.1 else sums.2

/-- Source: `calculate_compression_from_spans` (source lines 105-158). -/
def calculate_compression_from_spans (compressed_bytes : ℚ)
    (cumulative_worker_metrics : List (SpanKey × ℚ)) :
    Option ℚ × Option ℚ :=
  let uncompressed_bytes := uncompressedBytes cumulative_worker_metrics
  if uncompressed_bytes = 0 then (none, none)
  else if compressed_bytes = 0 then (none, none)
  else (some (uncompressed_bytes / compressed_bytes), some uncompressed_bytes)

/-! ## get_nested (src/roastcoffea/utils.py) -/

/-- A Python value as traversed by `get_nested`: `None`, a number, a
string, or a dict (association list with string keys). -/
inductive PyTree where
  | pynull
  | num (q : ℚ)
  | str (s : String)
  | dict (entries : List (String × PyTree))

/-- Model of `d.get(key)` on a dict value: the stored value, or `None` when the
key is absent. -/
def dictGet (entries : List (String × PyTree)) (k : String) : PyTree :=
  match entries.find? (fun p => p.1 = k) with
  | some p => p.2
  | none => PyTree.pynull

/-- Source: `get_nested` (source lines 8-37): walk the keys in order; as soon as
the current value is `None` or not a dict return the default, otherwise
step to `d.get(key)`; at the end return the value unless it is `None`. -/
def get_nested : PyTree → List String → PyTree → PyTree
  | d, [], default =>
      match d with
      | PyTree.pynull => default
      | _ => d
  | d, k :: ks, default =>
      match d with
      | PyTree.dict entries => get_nested (dictGet entries k) ks default
      | _ => default

/-! ## build_chunk_info (src/roastcoffea/aggregation/chunks.py) -/

/-- A chunk-metrics dict as read by `build_chunk_info`: the six fields it
accesses, each `none` when the key is absent (or `None`). -/
structure ChunkMetric where
  file : Option String
  entry_start : Option ℚ
  entry_stop : Option ℚ
  t_start : Option ℚ
  t_end : Option ℚ
  bytes_read : Option ℚ
deriving DecidableEq

/-- Key of the `chunk_info` dict: `(filename, entry_start, entry_stop)`. -/
abbrev ChunkKey := String × ℚ × ℚ

/-- Value of the `chunk_info` dict: `(t_start, t_end, bytes_read)`. -/
abbrev ChunkVal := ℚ × ℚ × ℚ

/-- Python `d[k] = v` on an insertion-ordered dict: replace the value in
place when the key exists, else append the pair. -/
def dictAssign (m : List (ChunkKey × ChunkVal)) (k : ChunkKey) (v : ChunkVal) :
    List (ChunkKey × ChunkVal) :=
  if m.any (fun p => p.1 = k) then
    m.map (fun p => if p.1 = k then (k, v) else p)
  else m ++ [(k, v)]

/-- Dict lookup on the insertion-ordered representation. -/
def dictFind (m : List (ChunkKey × ChunkVal)) (k : ChunkKey) : Option ChunkVal :=
  (m.find? (fun p => p.1 = k)).map (fun p => p.2)

/-- The body of the `build_chunk_info` loop (source lines 42-61): skip
chunks with a missing essential field, otherwise assign
`(file, entry_start, entry_stop) ↦ (t_start, t_end, bytes_read)` with
`bytes_read` defaulting to `0`. -/
def chunkStep (acc : List (ChunkKey × ChunkVal)) (chunk : ChunkMetric) :
    List (ChunkKey × ChunkVal) :=
  match chunk.file, chunk.entry_start, chunk.entry_stop, chunk.t_start, chunk.t_end with
  | some f, some es, some ep, some ts, some te =>
      dictAssign acc (f, es, ep) (ts, te, chunk.bytes_read.getD 0)
  | _, _, _, _, _ => acc

/-- Source: `build_chunk_info` (source lines 12-63). -/
def build_chunk_info (chunk_metrics : List ChunkMetric) :
    List (ChunkKey × ChunkVal) :=
  chunk_metrics.foldl chunkStep []

/-- The key/value pair a chunk contributes, `none` when an essential
field is missing — the specification-side description of one chunk,
matching the skip condition of the source. -/
def chunkEntry (chunk : ChunkMetric) : Option (ChunkKey × ChunkVal) :=
  match chunk.file, chunk.entry_start, chunk.entry_stop, chunk.t_start, chunk.t_end with
  | some f, some es, some ep, some ts, some te =>
      some ((f, es, ep), (ts, te, chunk.bytes_read.getD 0))
  | _, _, _, _, _ => none

/-- Last-wins lookup over a list of contributed pairs: the value of the
last pair carrying the key, the specification-side reading of
"when several chunks produce the same key, the last one wins". -/
def lastWins (l : List (ChunkKey × ChunkVal)) (k : ChunkKey) : Option ChunkVal :=
  (l.reverse.find? (fun p => p.1 = k)).map (fun p => p.2)

/-! ## Claims C2-C5, C10: efficiency, guards, percentages, compression -/

/-- C2: with a core count present and a positive wall time whose product
with the core count is positive, `core_efficiency` is total CPU time over
(cores × wall time). -/
theorem core_efficiency_is_cpu_over_available (workflow_metrics : EffWorkflowInput)
    (worker_metrics : WorkerMetrics) (tc : ℚ)
    (hc : worker_metrics.total_cores = some tc)
    (hw : 0 < workflow_metrics.wall_time.getD 0)
    (hp : 0 < tc * workflow_metrics.wall_time.getD 0) :
    (calculate_efficiency_metrics workflow_metrics worker_metrics).core_efficiency =
      some (workflow_metrics.total_cpu_time.getD 0 /
        (tc * workflow_metrics.wall_time.getD 0)) := by
  simp only [calculate_efficiency_metrics, hc]
  rw [if_pos hw, if_pos hp]

/-- Witness for C2 at a concrete input. -/
theorem core_efficiency_is_cpu_over_available_witness :
    (⟨some 3⟩ : WorkerMetrics).total_cores = some 3 ∧
    0 < (⟨some 2, some 4, some 10⟩ : EffWorkflowInput).wall_time.getD 0 ∧
    0 < (3 : ℚ) * (⟨some 2, some 4, some 10⟩ : EffWorkflowInput).wall_time.getD 0 ∧
    (calculate_efficiency_metrics ⟨some 2, some 4, some 10⟩ ⟨some 3⟩).core_efficiency =
      some (2 / 3) := by
  refine ⟨rfl, by norm_num, by norm_num, ?_⟩
  have h := core_efficiency_is_cpu_over_available ⟨some 2, some 4, some 10⟩ ⟨some 3⟩ 3
    rfl (by norm_num) (by norm_num)
  rw [h]
  norm_num

/-- C3: a missing (or `None`) `total_cores` propagates as `None` into both
`core_efficiency` and `event_rate_core_hz`. -/
theorem missing_cores_propagates_none (workflow_metrics : EffWorkflowInput)
    (worker_metrics : WorkerMetrics)
    (hc : worker_metrics.total_cores = none) :
    (calculate_efficiency_metrics workflow_metrics worker_metrics).core_efficiency = none ∧
    (calculate_efficiency_metrics workflow_metrics worker_metrics).event_rate_core_hz = none := by
  simp [calculate_efficiency_metrics, hc]

/-- Witness for C3 at a concrete input. -/
theorem missing_cores_propagates_none_witness :
    (⟨none⟩ : WorkerMetrics).total_cores = none ∧
    (calculate_efficiency_metrics ⟨some 5, some 7, some 9⟩ ⟨none⟩).core_efficiency = none ∧
    (calculate_efficiency_metrics ⟨some 5, some 7, some 9⟩ ⟨none⟩).event_rate_core_hz = none := by
  have h := missing_cores_propagates_none ⟨some 5, some 7, some 9⟩ ⟨none⟩ rfl
  exact ⟨rfl, h.1, h.2⟩

/-- C4: every derived ratio is guarded against division by zero and
yields zero: the workflow rates when the wall time is not positive, the
aggregate event rate when the total CPU time is not positive, the average
CPU time per chunk when the chunk count is not positive, the speedup
factor when the wall time read by `calculate_efficiency_metrics` is not
positive, and both fine percentages when the accumulated CPU + I/O time
is not positive. -/
theorem division_guards_yield_zero (coffea_report : CoffeaReport)
    (t_start t_end : ℚ) (custom_metrics : Option (List (String × DatasetEntry)))
    (workflow_metrics : EffWorkflowInput) (worker_metrics : WorkerMetrics)
    (m : List (SpanKey × ℚ)) :
    ((aggregate_workflow_metrics coffea_report t_start t_end custom_metrics).wall_time ≤ 0 →
      (aggregate_workflow_metrics coffea_report t_start t_end custom_metrics).overall_rate_gbps = 0 ∧
      (aggregate_workflow_metrics coffea_report t_start t_end custom_metrics).overall_rate_mbps = 0 ∧
      (aggregate_workflow_metrics coffea_report t_start t_end custom_metrics).event_rate_wall_khz = 0) ∧
    ((aggregate_workflow_metrics coffea_report t_start t_end custom_metrics).total_cpu_time ≤ 0 →
      (aggregate_workflow_metrics coffea_report t_start t_end custom_metrics).event_rate_agg_khz = 0) ∧
    ((aggregate_workflow_metrics coffea_report t_start t_end custom_metrics).num_chunks ≤ 0 →
      (aggregate_workflow_metrics coffea_report t_start t_end custom_metrics).avg_cpu_time_per_chunk = 0) ∧
    (workflow_metrics.wall_time.getD 0 ≤ 0 →
      (calculate_efficiency_metrics workflow_metrics worker_metrics).speedup_factor = 0) ∧
    (¬ 0 < (parse_fine_metrics m).cpu_time_seconds + (parse_fine_metrics m).io_time_seconds →
      (parse_fine_metrics m).cpu_percentage = 0 ∧ (parse_fine_metrics m).io_percentage = 0) := by
  refine ⟨?_, ?_, ?_, ?_, ?_⟩
  · intro h
    simp only [aggregate_workflow_metrics] at h ⊢
    rw [if_neg (not_lt.mpr h), if_neg (not_lt.mpr h), if_neg (not_lt.mpr h)]
    exact ⟨rfl, rfl, rfl⟩
  · intro h
    simp only [aggregate_workflow_metrics] at h ⊢
    rw [if_neg (not_lt.mpr h)]
  · intro h
    simp only [aggregate_workflow_metrics] at h ⊢
    rw [if_neg (not_lt.mpr h)]
  · intro h
    simp only [calculate_efficiency_metrics]
    rw [if_neg (not_lt.mpr h)]
  · intro h
    simp only [parse_fine_metrics] at h ⊢
    rw [if_neg h, if_neg h]
    exact ⟨rfl, rfl⟩

/-- Witness for C4 at concrete inputs where every guard condition is met. -/
theorem division_guards_yield_zero_witness :
    ((aggregate_workflow_metrics ⟨none, none, none, none⟩ 5 5 none).wall_time ≤ 0 ∧
      (aggregate_workflow_metrics ⟨none, none, none, none⟩ 5 5 none).overall_rate_gbps = 0 ∧
      (aggregate_workflow_metrics ⟨none, none, none, none⟩ 5 5 none).overall_rate_mbps = 0 ∧
      (aggregate_workflow_metrics ⟨none, none, none, none⟩ 5 5 none).event_rate_wall_khz = 0) ∧
    ((aggregate_workflow_metrics ⟨none, none, none, none⟩ 5 5 none).total_cpu_time ≤ 0 ∧
      (aggregate_workflow_metrics ⟨none, none, none, none⟩ 5 5 none).event_rate_agg_khz = 0) ∧
    ((aggregate_workflow_metrics ⟨none, none, none, none⟩ 5 5 none).num_chunks ≤ 0 ∧
      (aggregate_workflow_metrics ⟨none, none, none, none⟩ 5 5 none).avg_cpu_time_per_chunk = 0) ∧
    ((⟨some 0, some 3, some 3⟩ : EffWorkflowInput).wall_time.getD 0 ≤ 0 ∧
      (calculate_efficiency_metrics ⟨some 0, some 3, some 3⟩ ⟨none⟩).speedup_factor = 0) ∧
    (¬ 0 < (parse_fine_metrics []).cpu_time_seconds + (parse_fine_metrics []).io_time_seconds ∧
      (parse_fine_metrics []).cpu_percentage = 0 ∧ (parse_fine_metrics []).io_percentage = 0) := by
  have h := division_guards_yield_zero ⟨none, none, none, none⟩ 5 5 none
    ⟨some 0, some 3, some 3⟩ ⟨none⟩ []
  have hw : (aggregate_workflow_metrics ⟨none, none, none, none⟩ 5 5 none).wall_time ≤ 0 := by
    norm_num [aggregate_workflow_metrics]
  have hc : (aggregate_workflow_metrics ⟨none, none, none, none⟩ 5 5 none).total_cpu_time ≤ 0 := by
    norm_num [aggregate_workflow_metrics, sumEntries, combinedReport]
  have hn : (aggregate_workflow_metrics ⟨none, none, none, none⟩ 5 5 none).num_chunks ≤ 0 := by
    norm_num [aggregate_workflow_metrics]
  have hs : (⟨some 0, some 3, some 3⟩ : EffWorkflowInput).wall_time.getD 0 ≤ 0 := by norm_num
  have hf : ¬ 0 < (parse_fine_metrics []).cpu_time_seconds + (parse_fine_metrics []).io_time_seconds := by
    norm_num [parse_fine_metrics]
  exact ⟨⟨hw, h.1 hw⟩, ⟨hc, h.2.1 hc⟩, ⟨hn, h.2.2.1 hn⟩, ⟨hs, h.2.2.2.1 hs⟩,
    ⟨hf, h.2.2.2.2 hf⟩⟩

/-- C10: the fine CPU and I/O percentages sum exactly to 100 when the
accumulated CPU + I/O time is positive, and are both 0 otherwise. -/
theorem fine_percentages_sum_to_100 (m : List (SpanKey × ℚ)) :
    (0 < (parse_fine_metrics m).cpu_time_seconds + (parse_fine_metrics m).io_time_seconds →
      (parse_fine_metrics m).cpu_percentage + (parse_fine_metrics m).io_percentage = 100) ∧
    (¬ 0 < (parse_fine_metrics m).cpu_time_seconds + (parse_fine_metrics m).io_time_seconds →
      (parse_fine_metrics m).cpu_percentage = 0 ∧ (parse_fine_metrics m).io_percentage = 0) := by
  constructor
  · intro h
    simp only [parse_fine_metrics] at h ⊢
    rw [if_pos h, if_pos h]
    have hT : (List.foldl fineStep ⟨0, 0, 0, 0, 0, 0, 0, 0⟩ m).cpu_time +
        (List.foldl fineStep ⟨0, 0, 0, 0, 0, 0, 0, 0⟩ m).io_time ≠ 0 := ne_of_gt h
    field_simp
    ring
  · intro h
    simp only [parse_fine_metrics] at h ⊢
    rw [if_neg h, if_neg h]
    exact ⟨rfl, rfl⟩

/-- Witness for C10 at a concrete input with positive total time. -/
theorem fine_percentages_sum_to_100_witness :
    0 < (parse_fine_metrics [(SpanKey.tup ["execute", "p", "thread-cpu", "seconds"], 3),
        (SpanKey.tup ["execute", "p", "thread-noncpu", "seconds"], 1)]).cpu_time_seconds +
      (parse_fine_metrics [(SpanKey.tup ["execute", "p", "thread-cpu", "seconds"], 3),
        (SpanKey.tup ["execute", "p", "thread-noncpu", "seconds"], 1)]).io_time_seconds ∧
    (parse_fine_metrics [(SpanKey.tup ["execute", "p", "thread-cpu", "seconds"], 3),
        (SpanKey.tup ["execute", "p", "thread-noncpu", "seconds"], 1)]).cpu_percentage +
      (parse_fine_metrics [(SpanKey.tup ["execute", "p", "thread-cpu", "seconds"], 3),
        (SpanKey.tup ["execute", "p", "thread-noncpu", "seconds"], 1)]).io_percentage = 100 := by
  have h := fine_percentages_sum_to_100 [(SpanKey.tup ["execute", "p", "thread-cpu", "seconds"], 3),
    (SpanKey.tup ["execute", "p", "thread-noncpu", "seconds"], 1)]
  have hp : 0 < (parse_fine_metrics [(SpanKey.tup ["execute", "p", "thread-cpu", "seconds"], 3),
      (SpanKey.tup ["execute", "p", "thread-noncpu", "seconds"], 1)]).cpu_time_seconds +
      (parse_fine_metrics [(SpanKey.tup ["execute", "p", "thread-cpu", "seconds"], 3),
        (SpanKey.tup ["execute", "p", "thread-noncpu", "seconds"], 1)]).io_time_seconds := by
    norm_num [parse_fine_metrics, fineStep]
  exact ⟨hp, h.1 hp⟩

/-- C5: `calculate_compression_from_spans` returns `(None, None)` when the
uncompressed byte count (disk-read bytes if positive, else memory-read
bytes) is zero or the compressed byte count is zero, and otherwise the
ratio uncompressed/compressed together with the uncompressed bytes. -/
theorem compression_from_spans_cases (compressed_bytes : ℚ)
    (m : List (SpanKey × ℚ)) :
    (uncompressedBytes m = 0 →
      calculate_compression_from_spans compressed_bytes m = (none, none)) ∧
    (compressed_bytes = 0 →
      calculate_compression_from_spans compressed_bytes m = (none, none)) ∧
    (uncompressedBytes m ≠ 0 → compressed_bytes ≠ 0 →
      calculate_compression_from_spans compressed_bytes m =
        (some (uncompressedBytes m / compressed_bytes), some (uncompressedBytes m))) := by
  refine ⟨fun h => ?_, fun h => ?_, fun h1 h2 => ?_⟩
  · simp [calculate_compression_from_spans, h]
  · simp only [calculate_compression_from_spans]
    split_ifs <;> simp_all
  · simp [calculate_compression_from_spans, h1, h2]

/-- Witness for C5 at a concrete input with nonzero counts. -/
theorem compression_from_spans_cases_witness :
    uncompressedBytes [(SpanKey.tup ["execute", "p", "disk-read", "bytes"], 30)] ≠ 0 ∧
    (10 : ℚ) ≠ 0 ∧
    calculate_compression_from_spans 10
        [(SpanKey.tup ["execute", "p", "disk-read", "bytes"], 30)] =
      (some 3, some 30) := by
  have h := (compression_from_spans_cases 10
    [(SpanKey.tup ["execute", "p", "disk-read", "bytes"], 30)]).2.2
  have h1 : uncompressedBytes [(SpanKey.tup ["execute", "p", "disk-read", "bytes"], 30)] ≠ 0 := by
    norm_num [uncompressedBytes, compressionSums]
  have h2 : (10 : ℚ) ≠ 0 := by norm_num
  refine ⟨h1, h2, ?_⟩
  rw [h h1 h2]
  have h30 : uncompressedBytes [(SpanKey.tup ["execute", "p", "disk-read", "bytes"], 30)] = 30 := by
    norm_num [uncompressedBytes, compressionSums]
  rw [h30]
  norm_num

/-! ## Claims C8, C9: get_nested and build_chunk_info -/

/-- C8: `get_nested` walks the keys in order (stepping through `d.get(key)`
on dicts), returns the default as soon as the current value is `None`
(hence also when a key was missing) or not a dict, and at the end returns
the reached value unless it is `None`. -/
theorem get_nested_characterization (d : PyTree) (ks : List String) (k : String)
    (entries : List (String × PyTree)) (default : PyTree) :
    (get_nested PyTree.pynull ks default = default) ∧
    (get_nested (PyTree.dict entries) (k :: ks) default =
      get_nested (dictGet entries k) ks default) ∧
    ((entries.find? fun p => p.1 = k) = none →
      get_nested (PyTree.dict entries) (k :: ks) default = default) ∧
    ((∀ es, d ≠ PyTree.dict es) → get_nested d (k :: ks) default = default) ∧
    (d = PyTree.pynull → get_nested d [] default = default) ∧
    (d ≠ PyTree.pynull → get_nested d [] default = d) := by
  have hnull : ∀ ks2, get_nested PyTree.pynull ks2 default = default := by
    intro ks2; cases ks2 <;> rfl
  refine ⟨hnull ks, rfl, ?_, ?_, ?_, ?_⟩
  · intro h
    show get_nested (dictGet entries k) ks default = default
    rw [show dictGet entries k = PyTree.pynull by simp [dictGet, h]]
    exact hnull ks
  · intro h
    cases d with
    | pynull => rfl
    | num q => rfl
    | str s => rfl
    | dict es => exact absurd rfl (h es)
  · intro h; subst h; rfl
  · intro h
    cases d with
    | pynull => exact absurd rfl h
    | num q => rfl
    | str s => rfl
    | dict es => rfl

/-- Witness for C8: a missing key and a non-dict intermediate both give
the default. -/
theorem get_nested_characterization_witness :
    (([("a", PyTree.num 1)].find? fun p => p.1 = "b") = none ∧
      get_nested (PyTree.dict [("a", PyTree.num 1)]) ["b"] (PyTree.num 7) = PyTree.num 7) ∧
    ((∀ es, PyTree.num 5 ≠ PyTree.dict es) ∧
      get_nested (PyTree.num 5) ["b"] (PyTree.num 7) = PyTree.num 7) := by
  have h := get_nested_characterization (PyTree.num 5) [] "b" [("a", PyTree.num 1)]
    (PyTree.num 7)
  have hfind : ([("a", PyTree.num 1)].find? fun p => p.1 = "b") = none := by
    simp [List.find?]
  have hnd : ∀ es, PyTree.num 5 ≠ PyTree.dict es := fun es h => by cases h
  exact ⟨⟨hfind, h.2.2.1 hfind⟩, ⟨hnd, h.2.2.2.1 hnd⟩⟩

/-- Helper: `List.find?` on a cons, phrased with an if. -/
theorem find?_cons_ite {α : Type} (p : α → Bool) (a : α) (l : List α) :
    (a :: l).find? p = if p a then some a else l.find? p := by
  rw [List.find?_cons]
  split <;> simp_all

/-- Dict lookup on a cons cell, phrased with an if. -/
theorem dictFind_cons (x : ChunkKey × ChunkVal) (t : List (ChunkKey × ChunkVal))
    (k : ChunkKey) :
    dictFind (x :: t) k = if x.1 = k then some x.2 else dictFind t k := by
  unfold dictFind
  rw [find?_cons_ite]
  by_cases h : x.1 = k <;> simp [h]

/-- Lookup after replacing-in-place every entry whose key is `k`
(the `key exists` branch of a Python dict assignment). -/
theorem dictFind_mapAssign (m : List (ChunkKey × ChunkVal)) (k kq : ChunkKey)
    (v : ChunkVal) :
    dictFind (m.map fun p => if p.1 = k then (k, v) else p) kq =
      if kq = k then (if m.any fun p => p.1 = k then some v else none)
      else dictFind m kq := by
  induction m with
  | nil => by_cases h : kq = k <;> simp [dictFind, h]
  | cons p t ih =>
    by_cases hp : p.1 = k
    · rw [List.map_cons, if_pos hp, dictFind_cons, dictFind_cons]
      by_cases hk : kq = k
      · simp [hk, List.any_cons, hp]
      · have h1 : ¬ k = kq := fun h => hk h.symm
        have h2 : ¬ p.1 = kq := by rw [hp]; exact h1
        simp [h1, h2, hk, ih]
    · rw [List.map_cons, if_neg hp, dictFind_cons, dictFind_cons]
      by_cases hq : p.1 = kq
      · have hk : ¬ kq = k := fun h => hp (h ▸ hq)
        simp [hq, hk]
      · have hd : (decide (p.1 = k)) = false := by simp [hp]
        rw [if_neg hq, if_neg hq, ih, List.any_cons, hd, Bool.false_or]

/-- Lookup after a Python dict assignment `m[k] = v`: key `k` now maps to
`v`, every other key is untouched. -/
theorem dictFind_dictAssign (m : List (ChunkKey × ChunkVal)) (k kq : ChunkKey)
    (v : ChunkVal) :
    dictFind (dictAssign m k v) kq = if kq = k then some v else dictFind m kq := by
  unfold dictAssign
  by_cases hmem : m.any fun p => p.1 = k
  · rw [if_pos hmem, dictFind_mapAssign, if_pos hmem]
  · rw [if_neg hmem]
    have hmem2 : ∀ x ∈ m, ¬ x.1 = k := by
      intro x hx hxk
      exact hmem (List.any_eq_true.mpr ⟨x, hx, by simpa using hxk⟩)
    unfold dictFind
    rw [List.find?_append]
    by_cases hk : kq = k
    · subst hk
      have hn : m.find? (fun p => p.1 = kq) = none := by
        rw [List.find?_eq_none]
        intro x hx
        simp only [decide_eq_true_eq]
        exact hmem2 x hx
      rw [hn]
      simp [find?_cons_ite]
    · have h1 : ¬ k = kq := fun h => hk h.symm
      simp [find?_cons_ite, h1, hk]

/-- Helper: `chunkStep` factors through `chunkEntry`: each chunk either assigns
its contributed pair or is skipped. -/
theorem chunkStep_eq_entry (acc : List (ChunkKey × ChunkVal)) (c : ChunkMetric) :
    chunkStep acc c =
      match chunkEntry c with
      | some p => dictAssign acc p.1 p.2
      | none => acc := by
  rcases c with ⟨f, es, ep, ts, te, br⟩
  cases f <;> cases es <;> cases ep <;> cases ts <;> cases te <;> rfl

/-- Peeling one pair off a last-wins lookup. -/
theorem lastWins_cons (e : ChunkKey × ChunkVal) (l : List (ChunkKey × ChunkVal))
    (k : ChunkKey) :
    lastWins (e :: l) k = (lastWins l k).or (if e.1 = k then some e.2 else none) := by
  unfold lastWins
  rw [List.reverse_cons, List.find?_append]
  rcases hfl : l.reverse.find? (fun p => p.1 = k) with _ | p <;>
    rw [hfl] <;> by_cases he : e.1 = k <;> simp [find?_cons_ite, he]

/-- The fold of `build_chunk_info` generalized over its accumulator:
lookup prefers the last contributed pair of the list, else falls back to
the accumulator. -/
theorem foldl_chunkStep_find (l : List ChunkMetric)
    (acc : List (ChunkKey × ChunkVal)) (k : ChunkKey) :
    dictFind (l.foldl chunkStep acc) k =
      (lastWins (l.filterMap chunkEntry) k).or (dictFind acc k) := by
  induction l generalizing acc with
  | nil => simp [lastWins, dictFind]
  | cons c t ih =>
    rw [List.foldl_cons, ih, List.filterMap_cons]
    rcases hc : chunkEntry c with _ | p
    · simp only [chunkStep_eq_entry, hc]
    · simp only [chunkStep_eq_entry, hc, lastWins_cons, dictFind_dictAssign]
      rcases lastWins (t.filterMap chunkEntry) k with _ | w
      · by_cases hk : p.1 = k
        · subst hk
          simp
        · have hk2 : ¬ k = p.1 := fun h => hk h.symm
          simp [hk, hk2]
      · simp

/-- C9: looking up any key in `build_chunk_info`'s result finds exactly
the pair contributed by the last chunk with that key whose `file`,
`entry_start`, `entry_stop`, `t_start` and `t_end` are all present
(with `bytes_read` defaulting to 0), and nothing for other keys. -/
theorem build_chunk_info_last_wins (chunk_metrics : List ChunkMetric)
    (k : ChunkKey) :
    dictFind (build_chunk_info chunk_metrics) k =
      lastWins (chunk_metrics.filterMap chunkEntry) k := by
  rw [build_chunk_info, foldl_chunkStep_find]
  simp [dictFind]

/-! ## The aggregator (src/roastcoffea/aggregation/core.py)

`MetricsAggregator.aggregate` combines the embedded aggregation functions
with collaborators whose implementation is not among the aggregation
sources embedded above; those are taken as parameters, so every theorem
below holds for all of their behaviours. -/

/-- A flat Python value stored in a metrics dict: a number, a string,
`None`, a reference to another dict, or any other object. -/
inductive PyV where
  | num (q : ℚ)
  | str (s : String)
  | pynone
  | ref (a : Nat)
  | other
deriving DecidableEq

/-- A Python dict with string keys, in insertion order. -/
abbrev PyObj := List (String × PyV)

/-- Model of `o.get(k)` as an `Option`: `some` exactly when the key is present. -/
def objGet? (o : PyObj) (k : String) : Option PyV :=
  (o.find? (fun p => p.1 = k)).map (fun p => p.2)

/-- Model of `o.get(k, d)`. -/
def objGetD (o : PyObj) (k : String) (d : PyV) : PyV := (objGet? o k).getD d

/-- Model of `o.get(k)` with Python's implicit `None` default. -/
def objGetN (o : PyObj) (k : String) : PyV := objGetD o k PyV.pynone

/-- Numeric view of a value, with a default for non-numbers. -/
def pyNum (v : PyV) (d : ℚ) : ℚ :=
  match v with
  | PyV.num q => q
  | _ => d

/-- Python truthiness of a flat value: `0`, `""` and `None` are falsy.
(The source only tests truthiness of numbers and `None` here.) -/
def pyTruthy (v : PyV) : Bool :=
  match v with
  | PyV.num q => decide (q ≠ 0)
  | PyV.str s => decide (s ≠ "")
  | PyV.pynone => false
  | PyV.ref _ => true
  | PyV.other => true

/-- An optional number as a Python value. -/
def pyOpt (v : Option ℚ) : PyV :=
  match v with
  | some q => PyV.num q
  | none => PyV.pynone

/-- The dict literal returned by `aggregate_workflow_metrics`
(workflow.py lines 100-117), with its exact keys. -/
def renderWorkflowMetrics (w : WorkflowMetrics) : PyObj :=
  [("overall_rate_gbps", PyV.num w.overall_rate_gbps),
   ("overall_rate_mbps", PyV.num w.overall_rate_mbps),
   ("compression_ratio", pyOpt w.compression_ratio),
   ("total_events", PyV.num w.total_events),
   ("event_rate_wall_khz", PyV.num w.event_rate_wall_khz),
   ("event_rate_agg_khz", PyV.num w.event_rate_agg_khz),
   ("wall_time", PyV.num w.wall_time),
   ("total_cpu_time", PyV.num w.total_cpu_time),
   ("num_chunks", PyV.num w.num_chunks),
   ("avg_cpu_time_per_chunk", PyV.num w.avg_cpu_time_per_chunk),
   ("total_bytes_compressed", PyV.num w.total_bytes_compressed),
   ("total_bytes_uncompressed", pyOpt w.total_bytes_uncompressed)]

/-- The dict literal returned by `calculate_efficiency_metrics`
(efficiency.py lines 57-61), with its exact keys. -/
def renderEfficiencyMetrics (e : EfficiencyMetrics) : PyObj :=
  [("core_efficiency", pyOpt e.core_efficiency),
   ("speedup_factor", PyV.num e.speedup_factor),
   ("event_rate_core_hz", pyOpt e.event_rate_core_hz)]

/-- The reads `calculate_efficiency_metrics` performs on its
`workflow_metrics` dict argument (`.get(key, 0)` on three keys),
as a typed view of an arbitrary dict. -/
def effInputOfObj (o : PyObj) : EffWorkflowInput :=
  { wall_time := (objGet? o "wall_time").map (fun v => pyNum v 0)
    total_cpu_time := (objGet? o "total_cpu_time").map (fun v => pyNum v 0)
    total_events := (objGet? o "total_events").map (fun v => pyNum v 0) }

/-- The read `calculate_efficiency_metrics` performs on its
`worker_metrics` dict argument: `.get("total_cores")`, where both an
absent key and a present `None` behave as `None`. -/
def workerOfObj (o : PyObj) : WorkerMetrics :=
  { total_cores :=
      match objGet? o "total_cores" with
      | some PyV.pynone => none
      | some v => some (pyNum v 0)
      | none => none }

/-- Modelled from the spec: the collaborators of
`MetricsAggregator.aggregate` whose implementation is missing from the
sources — `get_parser(backend).parse_tracking_data` (the backend adapter
turning raw tracking data into a worker-metrics dict), the
processor-aware `parse_fine_metrics(span_metrics, processor_name=...)`
variant (fine span metrics separated into processor and overhead parts),
`aggregate_chunk_metrics` and `aggregate_branch_coverage`.  Each is an
abstract dict-producing function. -/
structure AggregatorDeps (TD SM : Type) where
  parse_tracking_data : TD → PyObj
  parse_fine : List (SpanKey × ℚ) → Option String → PyObj
  aggregate_chunk_metrics : List ChunkMetric → Option SM → PyObj
  aggregate_branch_coverage : Option (List ChunkMetric) → CoffeaReport → PyObj

/-- The `raw` part of the aggregate result (core.py lines 135-141). -/
structure AggregateRaw (TD SM : Type) where
  workers : Option TD
  tasks : Option (List (SpanKey × ℚ))
  chunks : Option (List ChunkMetric)
  sections : Option SM
  chunk_info : Option (List (ChunkKey × ChunkVal))

/-- The combined result of `MetricsAggregator.aggregate`: the `raw` dict
and the `summary` dict of named sections. -/
structure AggregateResult (TD SM : Type) where
  raw : AggregateRaw TD SM
  summary : List (String × PyObj)

/-- Model of `chunk_info` as computed by `aggregate` (core.py lines 112-119):
`build_chunk_info` when the chunk-metrics list is truthy, else `None`. -/
def chunkInfoOf (chunk_metrics : Option (List ChunkMetric)) :
    Option (List (ChunkKey × ChunkVal)) :=
  match chunk_metrics with
  | some l => if l.isEmpty then none else some (build_chunk_info l)
  | none => none

/-- Source: `MetricsAggregator.aggregate` (core.py lines 34-248). -/
def MetricsAggregator.aggregate {TD SM : Type} (deps : AggregatorDeps TD SM)
    (coffea_report : CoffeaReport) (tracking_data : Option TD)
    (t_start t_end : ℚ)
    (custom_metrics : Option (List (String × DatasetEntry)))
    (span_metrics : Option (List (SpanKey × ℚ)))
    (processor_name : Option String)
    (chunk_metrics : Option (List ChunkMetric))
    (section_metrics : Option SM) : AggregateResult TD SM :=
  let workflow_metrics :=
    renderWorkflowMetrics
      (aggregate_workflow_metrics coffea_report t_start t_end custom_metrics)
  let worker_metrics : PyObj :=
    match tracking_data with
    | some td => deps.parse_tracking_data td
    | none => []
  let fine_metrics : PyObj :=
    match span_metrics with
    | some m => if m.isEmpty then [] else deps.parse_fine m processor_name
    | none => []
  let chunk_agg : PyObj :=
    match chunk_metrics with
    | some l =>
        if l.isEmpty then [] else deps.aggregate_chunk_metrics l section_metrics
    | none => []
  let chunk_info := chunkInfoOf chunk_metrics
  let branch_coverage_metrics := deps.aggregate_branch_coverage chunk_metrics coffea_report
  let efficiency_metrics :=
    renderEfficiencyMetrics
      (calculate_efficiency_metrics (effInputOfObj workflow_metrics)
        (workerOfObj worker_metrics))
  { raw :=
      { workers := tracking_data
        tasks := span_metrics
        chunks := chunk_metrics
        sections := section_metrics
        chunk_info := chunk_info }
    summary :=
      [("throughput",
         [("data_rate_gbps", objGetN workflow_metrics "data_rate_gbps"),
          ("data_rate_mbps",
            if pyTruthy (objGetN workflow_metrics "data_rate_gbps") then
              PyV.num (pyNum (objGetD workflow_metrics "data_rate_gbps" (PyV.num 0)) 0
                * 1000 / 8)
            else PyV.pynone),
          ("bytes_read", objGetN workflow_metrics "total_bytes_read"),
          ("bytes_read_spans", objGetN fine_metrics "total_bytes_memory_read")]),
       ("events",
         [("total", objGetN workflow_metrics "total_events"),
          ("rate_wall_khz", objGetN workflow_metrics "event_rate_elapsed_khz"),
          ("rate_cpu_khz", objGetN workflow_metrics "event_rate_cpu_total_khz"),
          ("rate_core_khz", objGetN efficiency_metrics "event_rate_core_khz")]),
       ("resources",
         [("workers_avg", objGetN worker_metrics "avg_workers"),
          ("workers_peak", objGetN worker_metrics "peak_workers"),
          ("cores_per_worker", objGetN worker_metrics "cores_per_worker"),
          ("cores_total", objGetN worker_metrics "total_cores"),
          ("memory_peak_bytes", objGetN worker_metrics "peak_memory_bytes"),
          ("memory_avg_bytes", objGetN worker_metrics "avg_memory_per_worker_bytes")]),
       ("timing",
         [("wall_seconds", objGetN workflow_metrics "elapsed_time_seconds"),
          ("cpu_seconds", objGetN workflow_metrics "total_cpu_time"),
          ("num_chunks", objGetN workflow_metrics "num_chunks"),
          ("avg_chunk_seconds", objGetN workflow_metrics "avg_cpu_time_per_chunk")]),
       ("efficiency",
         [("core_efficiency", objGetN efficiency_metrics "core_efficiency"),
          ("speedup", objGetN efficiency_metrics "speedup_factor")]),
       ("fine",
         [("processor_cpu_seconds", objGetN fine_metrics "processor_cpu_time_seconds"),
          ("processor_io_seconds", objGetN fine_metrics "processor_io_wait_time_seconds"),
          ("processor_cpu_percent", objGetN fine_metrics "processor_cpu_percent"),
          ("processor_io_percent", objGetN fine_metrics "processor_io_wait_percent"),
          ("overhead_cpu_seconds", objGetN fine_metrics "overhead_cpu_time_seconds"),
          ("overhead_io_seconds", objGetN fine_metrics "overhead_io_wait_time_seconds"),
          ("disk_read_bytes", objGetN fine_metrics "disk_read_bytes"),
          ("disk_write_bytes", objGetN fine_metrics "disk_write_bytes"),
          ("compression_seconds", objGetN fine_metrics "compression_time_seconds"),
          ("decompression_seconds", objGetN fine_metrics "decompression_time_seconds"),
          ("serialization_seconds", objGetN fine_metrics "serialization_time_seconds"),
          ("deserialization_seconds",
            objGetN fine_metrics "deserialization_time_seconds")]),
       ("data_access",
         [("total_branches_read", objGetN branch_coverage_metrics "total_branches_read"),
          ("avg_branches_read_percent",
            objGetN branch_coverage_metrics "avg_branches_read_percent"),
          ("avg_bytes_read_percent",
            objGetN branch_coverage_metrics "avg_bytes_read_percent"),
          ("bytes_read_percent_per_file",
            objGetN branch_coverage_metrics "bytes_read_percent_per_file"),
          ("compression_ratios", objGetN branch_coverage_metrics "compression_ratios"),
          ("file_metadata", objGetN branch_coverage_metrics "file_metadata"),
          ("file_read_metrics", objGetN branch_coverage_metrics "file_read_metrics")]),
       ("chunks",
         [("num_chunks", objGetD chunk_agg "num_chunks" (PyV.num 0)),
          ("num_successful", objGetN chunk_agg "num_successful_chunks"),
          ("num_failed", objGetN chunk_agg "num_failed_chunks"),
          ("duration_mean", objGetN chunk_agg "chunk_duration_mean"),
          ("duration_min", objGetN chunk_agg "chunk_duration_min"),
          ("duration_max", objGetN chunk_agg "chunk_duration_max"),
          ("duration_std", objGetN chunk_agg "chunk_duration_std"),
          ("mem_delta_mean_mb", objGetN chunk_agg "chunk_mem_delta_mean_mb"),
          ("mem_delta_min_mb", objGetN chunk_agg "chunk_mem_delta_min_mb"),
          ("mem_delta_max_mb", objGetN chunk_agg "chunk_mem_delta_max_mb"),
          ("events_mean", objGetN chunk_agg "chunk_events_mean"),
          ("events_min", objGetN chunk_agg "chunk_events_min"),
          ("events_max", objGetN chunk_agg "chunk_events_max"),
          ("per_dataset", objGetN chunk_agg "per_dataset"),
          ("sections", objGetN chunk_agg "sections")])] }

/-- C1: `MetricsAggregator.aggregate` merges the telemetry sources into
one combined structure whose `raw` part holds the input telemetry
(workers, tasks, chunks, sections, chunk_info) and whose `summary` part
has exactly the sections throughput, events, resources, timing,
efficiency, fine, data_access and chunks — for every behaviour of the
backend parser and of the fine/chunk/branch-coverage aggregators. -/
theorem aggregate_merges_into_raw_summary {TD SM : Type}
    (deps : AggregatorDeps TD SM) (coffea_report : CoffeaReport)
    (tracking_data : Option TD) (t_start t_end : ℚ)
    (custom_metrics : Option (List (String × DatasetEntry)))
    (span_metrics : Option (List (SpanKey × ℚ))) (processor_name : Option String)
    (chunk_metrics : Option (List ChunkMetric)) (section_metrics : Option SM) :
    (MetricsAggregator.aggregate deps coffea_report tracking_data t_start t_end
        custom_metrics span_metrics processor_name chunk_metrics section_metrics).raw =
      { workers := tracking_data
        tasks := span_metrics
        chunks := chunk_metrics
        sections := section_metrics
        chunk_info := chunkInfoOf chunk_metrics } ∧
    (MetricsAggregator.aggregate deps coffea_report tracking_data t_start t_end
        custom_metrics span_metrics processor_name chunk_metrics
        section_metrics).summary.map Prod.fst =
      ["throughput", "events", "resources", "timing", "efficiency", "fine",
        "data_access", "chunks"] :=
  ⟨rfl, rfl⟩

/-! ## The collector exit path (src/roastcoffea/collector.py) -/

/-- The mutable attributes of `MetricsCollector` involved in the
enter/report/exit path. -/
structure CollectorState (TD SM : Type) where
  track_workers : Bool
  processor_name : Option String
  t_start : Option ℚ
  t_end : Option ℚ
  coffea_report : Option CoffeaReport
  custom_metrics : Option (List (String × DatasetEntry))
  tracking_data : Option TD
  span_info : Bool
  span_metrics : Option (List (SpanKey × ℚ))
  metrics : Option (AggregateResult TD SM)

/-- Source: `MetricsCollector.__init__` (collector.py lines 72-110): timing,
report, tracking, span and metrics attributes all start as `None`. -/
def MetricsCollector.init (TD SM : Type) (track_workers : Bool)
    (processor_name : Option String) : CollectorState TD SM :=
  { track_workers := track_workers
    processor_name := processor_name
    t_start := none
    t_end := none
    coffea_report := none
    custom_metrics := none
    tracking_data := none
    span_info := false
    span_metrics := none
    metrics := none }

/-- Environment of one `__enter__` call: the sampled clock and whether the
backend span was created and entered successfully. -/
structure EnterEnv where
  now : ℚ
  span_created : Bool

/-- Source: `MetricsCollector.__enter__` (collector.py lines 112-134): records the
start time and keeps the span handle exactly when its creation and entry
succeeded. -/
def MetricsCollector.enter {TD SM : Type} (st : CollectorState TD SM)
    (env : EnterEnv) : CollectorState TD SM :=
  { st with t_start := some env.now, span_info := env.span_created }

/-- Source: `MetricsCollector.set_coffea_report` (collector.py lines 166-179). -/
def MetricsCollector.setCoffeaReport {TD SM : Type} (st : CollectorState TD SM)
    (report : CoffeaReport)
    (custom_metrics : Option (List (String × DatasetEntry))) :
    CollectorState TD SM :=
  { st with coffea_report := some report, custom_metrics := custom_metrics }

/-- Environment of one `__exit__` call: the sampled clock, the outcome of
exiting the span and extracting its metrics (`Except.error` models an
exception inside the `try` block), and the data returned by
`stop_tracking`. -/
structure ExitEnv (TD : Type) where
  now : ℚ
  span_result : Except Unit (Option (List (SpanKey × ℚ)))
  stop_result : Option TD

/-- Source: `MetricsCollector._aggregate_metrics` (collector.py lines 181-207):
raises unless timing and the coffea report are available, then stores the
aggregate built from the collected data, passing no chunk or section
metrics. -/
def MetricsCollector.aggregateMetricsStep {TD SM : Type}
    (deps : AggregatorDeps TD SM) (st : CollectorState TD SM) :
    Except String (CollectorState TD SM) :=
  match st.t_start, st.t_end with
  | some ts, some te =>
      match st.coffea_report with
      | some cr =>
          Except.ok { st with
            metrics := some (MetricsAggregator.aggregate deps cr st.tracking_data
              ts te st.custom_metrics st.span_metrics st.processor_name none none) }
      | none => Except.error "Coffea report not set - call set_coffea_report() first"
  | _, _ => Except.error "Timing not available - use within context manager"

/-- Source: `MetricsCollector.__exit__` (collector.py lines 136-164): capture the
end time, collect span metrics when a span exists (an exception during
extraction leaves them `None`), stop worker tracking when enabled, and
auto-aggregate only when a coffea report is present. -/
def MetricsCollector.exit {TD SM : Type} (deps : AggregatorDeps TD SM)
    (st : CollectorState TD SM) (env : ExitEnv TD) :
    Except String (CollectorState TD SM) :=
  let st1 := { st with t_end := some env.now }
  let st2 :=
    if st1.span_info then
      { st1 with span_metrics :=
          match env.span_result with
          | Except.ok r => r
          | Except.error _ => none }
    else st1
  let st3 :=
    if st2.track_workers then { st2 with tracking_data := env.stop_result } else st2
  if st3.coffea_report.isSome then MetricsCollector.aggregateMetricsStep deps st3
  else Except.ok st3

/-- Trivial instantiation of the abstract collaborators, used to evaluate
the collector at concrete inputs. -/
def trivDeps : AggregatorDeps Unit Unit :=
  { parse_tracking_data := fun _ => []
    parse_fine := fun _ _ => []
    aggregate_chunk_metrics := fun _ _ => []
    aggregate_branch_coverage := fun _ _ => [] }

/-- C6 counterexample: a complete enter/exit run during which
`set_coffea_report` was never called ends with `metrics = None` even
though the end timestamp was captured — `__exit__` skips aggregation
without a coffea report, so the claim fails for this run. -/
theorem collector_exit_without_report_keeps_metrics_none :
    (MetricsCollector.exit trivDeps
        (MetricsCollector.enter (MetricsCollector.init Unit Unit true none)
          { now := 0, span_created := false })
        { now := 5, span_result := Except.ok none, stop_result := none }).map
      (fun st => (st.metrics.isNone, st.t_end)) =
      Except.ok (true, some 5) := rfl

/-- C6 amended: for every run of the context manager during which a coffea
report was set, `__exit__` captures the end timestamp and invokes
aggregation, so that afterwards the `metrics` attribute holds the
aggregated summary of the collected data; without a report the metrics
attribute stays `None`. -/
theorem collector_exit_aggregates_when_report_set {TD SM : Type}
    (deps : AggregatorDeps TD SM) (st0 : CollectorState TD SM) (e1 : EnterEnv)
    (report : CoffeaReport) (cm : Option (List (String × DatasetEntry)))
    (env : ExitEnv TD) :
    ∃ stf : CollectorState TD SM,
      MetricsCollector.exit deps
          (MetricsCollector.setCoffeaReport (MetricsCollector.enter st0 e1) report cm)
          env =
        Except.ok stf ∧
      stf.t_end = some env.now ∧
      stf.metrics = some (MetricsAggregator.aggregate deps report stf.tracking_data
        e1.now env.now cm stf.span_metrics st0.processor_name none none) := by
  rcases st0 with ⟨tw, pn, ts0, te0, cr0, cm0, td0, si0, sm0, m0⟩
  rcases e1 with ⟨now1, sp1⟩
  cases sp1 <;> cases tw <;> exact ⟨_, rfl, rfl, rfl⟩


/-! ## Reference semantics for the purity claim

The three aggregation functions are re-embedded with their argument dicts
living in a store of Python dict objects, every operation the source
performs on an argument modelled explicitly.  All of them are reads
(`dict.get`, `in`, `.items()` iteration); the local `combined_report` and
the dicts of the fallback `"total"` literal are fresh objects appended to
the store, and the returned dict is a fresh literal.  The store returned
by each function exposes any mutation the source would perform on
pre-existing objects. -/

/-- A Python dict key: a string, a tuple of strings, or anything else. -/
inductive PyKey where
  | str (s : String)
  | tup (elems : List String)
  | otherKey
deriving DecidableEq

/-- A heap-allocated Python dict, in insertion order. -/
abbrev PyDictObj := List (PyKey × PyV)

/-- The store: dict objects addressed by position. -/
abbrev Store := List PyDictObj

/-- Dereference an address (addresses handed to the functions are valid;
a dangling address reads as the empty dict). -/
def deref (s : Store) (a : Nat) : PyDictObj := s.getD a []

/-- Model of `o.get(k)` for a string key, as an `Option`. -/
def dobjGet? (o : PyDictObj) (k : String) : Option PyV :=
  (o.find? (fun p => p.1 = PyKey.str k)).map (fun p => p.2)

/-- Model of `o.get(k, default)` read numerically: a present value is coerced with
`pyNum · 0` (a present non-number would make the source raise when used
arithmetically), an absent key yields the default. -/
def readNum (o : PyDictObj) (k : String) (default : ℚ) : ℚ :=
  match dobjGet? o k with
  | some v => pyNum v 0
  | none => default

/-- A string-keyed dict value as a heap object. -/
def dictObjOf (o : PyObj) : PyDictObj := o.map (fun p => (PyKey.str p.1, p.2))

/-- The string of a key (dataset names are strings; the sums never read
the keys). -/
def keyStr (k : PyKey) : String :=
  match k with
  | PyKey.str s => s
  | _ => ""

/-- The typed view of a stored coffea report: the four fields
`aggregate_workflow_metrics` reads, present values coerced numerically. -/
def abstractCoffea (s : Store) (a : Nat) : CoffeaReport :=
  { chunks := (dobjGet? (deref s a) "chunks").map (fun v => pyNum v 0)
    entries := (dobjGet? (deref s a) "entries").map (fun v => pyNum v 0)
    processtime := (dobjGet? (deref s a) "processtime").map (fun v => pyNum v 0)
    bytesread := (dobjGet? (deref s a) "bytesread").map (fun v => pyNum v 0) }

/-- The typed view of a stored dataset dict: `performance_counters` when
it is a dict reference, `entries` and `duration` numerically. -/
def abstractDataset (s : Store) (a : Nat) : DatasetData :=
  { performance_counters :=
      match dobjGet? (deref s a) "performance_counters" with
      | some (PyV.ref pa) =>
          some { num_requested_bytes :=
            (dobjGet? (deref s pa) "num_requested_bytes").map (fun v => pyNum v 0) }
      | _ => none
    entries := (dobjGet? (deref s a) "entries").map (fun v => pyNum v 0)
    duration := (dobjGet? (deref s a) "duration").map (fun v => pyNum v 0) }

/-- The typed view of a combined-report value: a dict reference is a
dataset entry, anything else is skipped by the `isinstance` check. -/
def abstractEntry (s : Store) (v : PyV) : DatasetEntry :=
  match v with
  | PyV.ref a => DatasetEntry.dictEntry (abstractDataset s a)
  | _ => DatasetEntry.nonDict

/-- The typed view of the optional custom-metrics dict. -/
def abstractCustom (s : Store) (a : Option Nat) :
    Option (List (String × DatasetEntry)) :=
  a.map (fun addr => (deref s addr).map (fun p => (keyStr p.1, abstractEntry s p.2)))

/-- The accumulation loop of `aggregate_workflow_metrics` over a stored
combined report (source lines 64-75): dict-reference values are
dereferenced and their `performance_counters`/`entries`/`duration` read;
other values are skipped. -/
def sumEntriesSt (s : Store) (l : PyDictObj) : ℚ × ℚ × ℚ :=
  l.foldl
    (fun acc p =>
      match p.2 with
      | PyV.ref a =>
          let pcBytes :=
            match dobjGet? (deref s a) "performance_counters" with
            | some (PyV.ref pa) => readNum (deref s pa) "num_requested_bytes" 0
            | _ => 0
          (acc.1 + pcBytes, acc.2.1 + readNum (deref s a) "entries" 0,
            acc.2.2 + readNum (deref s a) "duration" 0)
      | _ => acc)
    (0, 0, 0)

/-- The `combined_report` construction of `aggregate_workflow_metrics`
(workflow.py lines 44-57) over the store: when the custom metrics are
truthy their entries are copied (references shared); otherwise, when
`"bytesread"` is present, a fresh `performance_counters` dict and a fresh
`"total"` dict are allocated and the combined report references the
latter; otherwise the combined report is empty.  Returns the extended
store and the combined report. -/
def workflowAlloc (s0 : Store) (cr : PyDictObj) (wall_time : ℚ)
    (a_cm : Option Nat) : Store × PyDictObj :=
  let cmTruthy : Bool :=
    match a_cm with
    | some a => !(deref s0 a).isEmpty
    | none => false
  if cmTruthy then
    (s0, deref s0 (a_cm.getD 0))
  else
    match dobjGet? cr "bytesread" with
    | some bv =>
        let pcObj : PyDictObj := [(PyKey.str "num_requested_bytes", bv)]
        let totalObj : PyDictObj :=
          [(PyKey.str "entries",
             match dobjGet? cr "entries" with
             | some v => v
             | none => PyV.num 0),
           (PyKey.str "duration",
             match dobjGet? cr "processtime" with
             | some v => v
             | none => PyV.num wall_time),
           (PyKey.str "performance_counters", PyV.ref s0.length)]
        (s0 ++ [pcObj, totalObj], [(PyKey.str "total", PyV.ref (s0.length + 1))])
    | none => (s0, [])

/-- Reference-semantics embedding of `aggregate_workflow_metrics`
(workflow.py lines 12-117): returns the extended store and the fresh
result dict. -/
def aggregate_workflow_metrics_st (s0 : Store) (a_cr : Nat) (t_start t_end : ℚ)
    (a_cm : Option Nat) : Store × PyDictObj :=
  let wall_time := t_end - t_start
  let cr := deref s0 a_cr
  let num_chunks := readNum cr "chunks" 0
  let alloc := workflowAlloc s0 cr wall_time a_cm
  let s1 := alloc.1
  let totals := sumEntriesSt s1 alloc.2
  let total_bytes_compressed := totals.1
  let total_events := totals.2.1
  let total_cpu_time := totals.2.2
  (s1,
    [(PyKey.str "overall_rate_gbps",
       PyV.num (if wall_time > 0
         then (total_bytes_compressed * 8 / 1000000000) / wall_time else 0)),
     (PyKey.str "overall_rate_mbps",
       PyV.num (if wall_time > 0
         then (total_bytes_compressed / 1000000) / wall_time else 0)),
     (PyKey.str "compression_ratio", PyV.pynone),
     (PyKey.str "total_events", PyV.num total_events),
     (PyKey.str "event_rate_wall_khz",
       PyV.num (if wall_time > 0 then (total_events / wall_time) / 1000 else 0)),
     (PyKey.str "event_rate_agg_khz",
       PyV.num (if total_cpu_time > 0
         then (total_events / total_cpu_time) / 1000 else 0)),
     (PyKey.str "wall_time", PyV.num wall_time),
     (PyKey.str "total_cpu_time", PyV.num total_cpu_time),
     (PyKey.str "num_chunks", PyV.num num_chunks),
     (PyKey.str "avg_cpu_time_per_chunk",
       PyV.num (if num_chunks > 0 then total_cpu_time / num_chunks else 0)),
     (PyKey.str "total_bytes_compressed", PyV.num total_bytes_compressed),
     (PyKey.str "total_bytes_uncompressed", PyV.pynone)])

/-- The typed view of a stored workflow-metrics dict as read by
`calculate_efficiency_metrics`. -/
def abstractEffInput (s : Store) (a : Nat) : EffWorkflowInput :=
  { wall_time := (dobjGet? (deref s a) "wall_time").map (fun v => pyNum v 0)
    total_cpu_time := (dobjGet? (deref s a) "total_cpu_time").map (fun v => pyNum v 0)
    total_events := (dobjGet? (deref s a) "total_events").map (fun v => pyNum v 0) }

/-- The typed view of a stored worker-metrics dict as read by
`calculate_efficiency_metrics`: `.get("total_cores")`, absent and `None`
both `none`. -/
def abstractWorker (s : Store) (a : Nat) : WorkerMetrics :=
  { total_cores :=
      match dobjGet? (deref s a) "total_cores" with
      | some PyV.pynone => none
      | some v => some (pyNum v 0)
      | none => none }

/-- Reference-semantics embedding of `calculate_efficiency_metrics`
(efficiency.py lines 12-61): four reads, no writes, a fresh result
dict. -/
def calculate_efficiency_metrics_st (s : Store) (a_wf a_wk : Nat) :
    Store × PyDictObj :=
  let wall_time := readNum (deref s a_wf) "wall_time" 0
  let total_cpu_time := readNum (deref s a_wf) "total_cpu_time" 0
  let total_events := readNum (deref s a_wf) "total_events" 0
  let total_cores : Option ℚ :=
    match dobjGet? (deref s a_wk) "total_cores" with
    | some PyV.pynone => none
    | some v => some (pyNum v 0)
    | none => none
  let core_efficiency : Option ℚ :=
    match total_cores with
    | none => none
    | some tc =>
        if wall_time > 0 then
          let total_available_time := tc * wall_time
          some (if total_available_time > 0
            then total_cpu_time / total_available_time else 0)
        else some 0
  let speedup_factor := if wall_time > 0 then total_cpu_time / wall_time else 0
  let event_rate_core_hz : Option ℚ :=
    match total_cores with
    | none => none
    | some tc =>
        if wall_time > 0 then some (total_events / (wall_time * tc))
        else some 0
  (s,
    [(PyKey.str "core_efficiency", pyOpt core_efficiency),
     (PyKey.str "speedup_factor", PyV.num speedup_factor),
     (PyKey.str "event_rate_core_hz", pyOpt event_rate_core_hz)])

/-- The dict literal returned by `parse_fine_metrics` (fine_metrics.py
lines 85-102), with its exact keys. -/
def renderFineMetrics (f : FineMetrics) : PyObj :=
  [("cpu_time_seconds", PyV.num f.cpu_time_seconds),
   ("io_time_seconds", PyV.num f.io_time_seconds),
   ("cpu_percentage", PyV.num f.cpu_percentage),
   ("io_percentage", PyV.num f.io_percentage),
   ("disk_read_bytes", PyV.num f.disk_read_bytes),
   ("disk_write_bytes", PyV.num f.disk_write_bytes),
   ("decompression_time_seconds", PyV.num f.decompression_time_seconds),
   ("compression_time_seconds", PyV.num f.compression_time_seconds),
   ("total_compression_overhead_seconds",
     PyV.num f.total_compression_overhead_seconds),
   ("deserialization_time_seconds", PyV.num f.deserialization_time_seconds),
   ("serialization_time_seconds", PyV.num f.serialization_time_seconds),
   ("total_serialization_overhead_seconds",
     PyV.num f.total_serialization_overhead_seconds)]

/-- The span view of a stored fine-metrics dict: tuple keys keep their
elements, other keys are skipped by the loops; values numerically. -/
def spanOfDictObj (o : PyDictObj) : List (SpanKey × ℚ) :=
  o.map (fun p =>
    (match p.1 with
     | PyKey.tup l => SpanKey.tup l
     | _ => SpanKey.nontup, pyNum p.2 0))

/-- One iteration of the `parse_fine_metrics` loop over a stored entry
(fine_metrics.py lines 51-74). -/
def fineStepSt (acc : FineAcc) (p : PyKey × PyV) : FineAcc :=
  match p.1 with
  | PyKey.tup elems =>
      if elems.length < 3 then acc
      else
        match elems.getD 2 "" with
        | "thread-cpu" => { acc with cpu_time := acc.cpu_time + pyNum p.2 0 }
        | "thread-noncpu" => { acc with io_time := acc.io_time + pyNum p.2 0 }
        | "disk-read" => { acc with disk_read := acc.disk_read + pyNum p.2 0 }
        | "disk-write" => { acc with disk_write := acc.disk_write + pyNum p.2 0 }
        | "decompress" =>
            { acc with decompress_time := acc.decompress_time + pyNum p.2 0 }
        | "compress" => { acc with compress_time := acc.compress_time + pyNum p.2 0 }
        | "deserialize" =>
            { acc with deserialize_time := acc.deserialize_time + pyNum p.2 0 }
        | "serialize" =>
            { acc with serialize_time := acc.serialize_time + pyNum p.2 0 }
        | _ => acc
  | _ => acc

/-- Reference-semantics embedding of `parse_fine_metrics` (fine_metrics.py
lines 12-102): a read-only iteration over the stored dict and a fresh
result dict. -/
def parse_fine_metrics_st (s : Store) (a_m : Nat) : Store × PyDictObj :=
  let acc := (deref s a_m).foldl fineStepSt ⟨0, 0, 0, 0, 0, 0, 0, 0⟩
  let total_time := acc.cpu_time + acc.io_time
  (s,
    [(PyKey.str "cpu_time_seconds", PyV.num acc.cpu_time),
     (PyKey.str "io_time_seconds", PyV.num acc.io_time),
     (PyKey.str "cpu_percentage",
       PyV.num (if total_time > 0 then acc.cpu_time / total_time * 100 else 0)),
     (PyKey.str "io_percentage",
       PyV.num (if total_time > 0 then acc.io_time / total_time * 100 else 0)),
     (PyKey.str "disk_read_bytes", PyV.num acc.disk_read),
     (PyKey.str "disk_write_bytes", PyV.num acc.disk_write),
     (PyKey.str "decompression_time_seconds", PyV.num acc.decompress_time),
     (PyKey.str "compression_time_seconds", PyV.num acc.compress_time),
     (PyKey.str "total_compression_overhead_seconds",
       PyV.num (acc.compress_time + acc.decompress_time)),
     (PyKey.str "deserialization_time_seconds", PyV.num acc.deserialize_time),
     (PyKey.str "serialization_time_seconds", PyV.num acc.serialize_time),
     (PyKey.str "total_serialization_overhead_seconds",
       PyV.num (acc.serialize_time + acc.deserialize_time))])

/-- Helper: `.get(k, d)` numerically equals the option view with a default. -/
theorem readNum_eq (o : PyDictObj) (k : String) (d : ℚ) :
    readNum o k d = ((dobjGet? o k).map (fun v => pyNum v 0)).getD d := by
  rcases h : dobjGet? o k with _ | v <;> simp [readNum, h]

/-- The stored fine-metrics step agrees with the pure step on the span
view of the entry. -/
theorem fineStepSt_eq (acc : FineAcc) (p : PyKey × PyV) :
    fineStepSt acc p =
      fineStep acc
        (match p.1 with
         | PyKey.tup l => SpanKey.tup l
         | _ => SpanKey.nontup, pyNum p.2 0) := by
  rcases p with ⟨k, v⟩
  cases k <;> rfl

/-- The stored fine-metrics fold agrees with the pure fold on the span
view of the dict. -/
theorem foldl_fineStepSt (l : PyDictObj) (acc : FineAcc) :
    l.foldl fineStepSt acc = (spanOfDictObj l).foldl fineStep acc := by
  induction l generalizing acc with
  | nil => rfl
  | cons p t ih =>
    simp only [spanOfDictObj, List.map_cons, List.foldl_cons] at ih ⊢
    rw [fineStepSt_eq, ih]

/-- The stored `parse_fine_metrics` leaves the store unchanged and
returns the rendering of the pure result on the span view of its
argument. -/
theorem parse_fine_metrics_st_eq (s : Store) (a_m : Nat) :
    parse_fine_metrics_st s a_m =
      (s, dictObjOf (renderFineMetrics
        (parse_fine_metrics (spanOfDictObj (deref s a_m))))) := by
  simp only [parse_fine_metrics_st, parse_fine_metrics, renderFineMetrics, dictObjOf,
    foldl_fineStepSt, List.map_cons, List.map_nil]

/-- The stored `calculate_efficiency_metrics` leaves the store unchanged
and returns the rendering of the pure result on the typed views of its
arguments. -/
theorem calculate_efficiency_metrics_st_eq (s : Store) (a_wf a_wk : Nat) :
    calculate_efficiency_metrics_st s a_wf a_wk =
      (s, dictObjOf (renderEfficiencyMetrics (calculate_efficiency_metrics
        (abstractEffInput s a_wf) (abstractWorker s a_wk)))) := by
  simp only [calculate_efficiency_metrics_st, calculate_efficiency_metrics,
    abstractEffInput, abstractWorker, renderEfficiencyMetrics, dictObjOf, readNum,
    List.map_cons, List.map_nil]
  rcases h1 : dobjGet? (deref s a_wf) "wall_time" with _ | v1 <;>
    rcases h2 : dobjGet? (deref s a_wf) "total_cpu_time" with _ | v2 <;>
      rcases h3 : dobjGet? (deref s a_wf) "total_events" with _ | v3 <;>
        rcases h4 : dobjGet? (deref s a_wk) "total_cores" with _ | v4 <;>
          rfl

/-- Fresh allocations are invisible to existing addresses. -/
theorem deref_alloc_first (s : Store) (x y : PyDictObj) :
    deref (s ++ [x, y]) s.length = x := by
  unfold deref
  rw [List.getD_eq_getElem?_getD, List.getElem?_append_right (Nat.le_refl _)]
  simp

/-- Second fresh allocation. -/
theorem deref_alloc_second (s : Store) (x y : PyDictObj) :
    deref (s ++ [x, y]) (s.length + 1) = y := by
  unfold deref
  rw [List.getD_eq_getElem?_getD, List.getElem?_append_right (Nat.le_add_right _ _)]
  simp

/-- The stored accumulation loop agrees with the pure loop on the typed
view of the combined report. -/
theorem sumEntriesSt_eq (s : Store) (l : PyDictObj) :
    sumEntriesSt s l =
      sumEntries (l.map (fun p => (keyStr p.1, abstractEntry s p.2))) := by
  unfold sumEntriesSt sumEntries
  rw [List.foldl_map]
  congr 1
  funext acc p
  rcases p with ⟨k, v⟩
  cases v with
  | ref a =>
      simp only [abstractEntry, datasetBytes, abstractDataset]
      rcases hpc : dobjGet? (deref s a) "performance_counters" with _ | w
      · simp [readNum_eq, hpc, abstractDataset]
      · cases w <;> simp [readNum_eq, hpc, abstractDataset]
  | num q => rfl
  | str s2 => rfl
  | pynone => rfl
  | other => rfl

/-- Helper: `isEmpty` is preserved by `map`. -/
theorem isEmpty_map2 {α β : Type} (f : α → β) (l : List α) :
    (l.map f).isEmpty = l.isEmpty := by
  cases l <;> rfl

/-- The fallback branch: the allocated `"total"`/`performance_counters`
objects sum exactly like the pure fallback combined report. -/
theorem workflowAlloc_fallback_totals (s : Store) (a_cr : Nat) (wall_time : ℚ) :
    sumEntriesSt (workflowAlloc s (deref s a_cr) wall_time none).1
        (workflowAlloc s (deref s a_cr) wall_time none).2 =
      sumEntries (combinedReport (abstractCoffea s a_cr) wall_time none) := by
  rcases hb : dobjGet? (deref s a_cr) "bytesread" with _ | bv
  · simp [workflowAlloc, combinedReport, abstractCoffea, hb, sumEntriesSt, sumEntries]
  · simp only [workflowAlloc, combinedReport, abstractCoffea, hb, Option.map_some]
    rcases he : dobjGet? (deref s a_cr) "entries" with _ | ev <;>
      rcases hp : dobjGet? (deref s a_cr) "processtime" with _ | pv <;>
        simp [sumEntriesSt, sumEntries, datasetBytes, readNum, dobjGet?,
          find?_cons_ite, deref_alloc_first, deref_alloc_second, he, hp, pyNum]

/-- The stored combined report sums like the pure combined report in all
three construction branches. -/
theorem workflowAlloc_totals (s : Store) (a_cr : Nat) (wall_time : ℚ)
    (a_cm : Option Nat) :
    sumEntriesSt (workflowAlloc s (deref s a_cr) wall_time a_cm).1
        (workflowAlloc s (deref s a_cr) wall_time a_cm).2 =
      sumEntries (combinedReport (abstractCoffea s a_cr) wall_time
        (abstractCustom s a_cm)) := by
  rcases a_cm with _ | a
  · exact workflowAlloc_fallback_totals s a_cr wall_time
  · cases hemp : (deref s a).isEmpty
    · -- truthy custom metrics: entries copied, loop reads the shared store
      have h1 : workflowAlloc s (deref s a_cr) wall_time (some a) =
          (s, deref s a) := by
        simp [workflowAlloc, hemp]
      have h2 : combinedReport (abstractCoffea s a_cr) wall_time
          (abstractCustom s (some a)) =
          (deref s a).map (fun p => (keyStr p.1, abstractEntry s p.2)) := by
        simp [combinedReport, abstractCustom, isEmpty_map2, hemp]
      rw [h1, h2]
      exact sumEntriesSt_eq s (deref s a)
    · -- falsy (empty) custom metrics: both sides fall back
      have h1 : workflowAlloc s (deref s a_cr) wall_time (some a) =
          workflowAlloc s (deref s a_cr) wall_time none := by
        simp [workflowAlloc, hemp]
      have h2 : combinedReport (abstractCoffea s a_cr) wall_time
          (abstractCustom s (some a)) =
          combinedReport (abstractCoffea s a_cr) wall_time none := by
        simp [combinedReport, abstractCustom, isEmpty_map2, hemp]
      rw [h1, h2]
      exact workflowAlloc_fallback_totals s a_cr wall_time

/-- The stored `aggregate_workflow_metrics` returns the rendering of the
pure result on the typed views of its arguments. -/
theorem aggregate_workflow_metrics_st_eq (s : Store) (a_cr : Nat)
    (t_start t_end : ℚ) (a_cm : Option Nat) :
    (aggregate_workflow_metrics_st s a_cr t_start t_end a_cm).2 =
      dictObjOf (renderWorkflowMetrics (aggregate_workflow_metrics
        (abstractCoffea s a_cr) t_start t_end (abstractCustom s a_cm))) := by
  have hch : readNum (deref s a_cr) "chunks" 0 =
      (abstractCoffea s a_cr).chunks.getD 0 := by
    rw [readNum_eq]
    rfl
  simp only [aggregate_workflow_metrics_st, aggregate_workflow_metrics,
    renderWorkflowMetrics, dictObjOf, List.map_cons, List.map_nil]
  rw [workflowAlloc_totals, hch]
  rfl

/-- Helper: `getD` below the length of the left list ignores an appended tail. -/
theorem getD_append_lt {α : Type} (l t : List α) (i : Nat) (d : α)
    (h : i < l.length) : (l ++ t).getD i d = l.getD i d := by
  rw [List.getD_eq_getElem?_getD, List.getD_eq_getElem?_getD,
    List.getElem?_append_left h]

/-- The stored `aggregate_workflow_metrics` never modifies a dict that
existed before the call: the store is only extended with fresh objects. -/
theorem aggregate_workflow_metrics_st_preserves (s : Store) (a_cr : Nat)
    (t_start t_end : ℚ) (a_cm : Option Nat) (i : Nat) (h : i < s.length) :
    (aggregate_workflow_metrics_st s a_cr t_start t_end a_cm).1.getD i [] =
      s.getD i [] := by
  have hst : (aggregate_workflow_metrics_st s a_cr t_start t_end a_cm).1 =
      (workflowAlloc s (deref s a_cr) (t_end - t_start) a_cm).1 := rfl
  rw [hst]
  unfold workflowAlloc
  rcases a_cm with _ | a
  · rcases hb : dobjGet? (deref s a_cr) "bytesread" with _ | bv
    · simp [hb]
    · simp only [hb]
      exact getD_append_lt _ _ _ _ h
  · cases hemp : (deref s a).isEmpty
    · simp [hemp]
    · rcases hb : dobjGet? (deref s a_cr) "bytesread" with _ | bv
      · simp [hemp, hb]
      · simp only [hemp, hb, Bool.not_true]
        exact getD_append_lt _ _ _ _ h

/-- C7: the three aggregation functions are pure transformations.  Under
the reference semantics, (i) no dict object that existed before a call is
modified by it — the workflow aggregation only appends fresh local
objects to the store, and the efficiency and fine parsers return the
store unchanged — so the argument dicts are left untouched; and (ii) each
returned dict is the rendering of a pure function of the typed views of
the argument dicts alone, so two calls whose argument dicts hold equal
values return equal result dicts. -/
theorem aggregation_functions_pure (s : Store) (a_cr : Nat) (t_start t_end : ℚ)
    (a_cm : Option Nat) (a_wf a_wk a_m : Nat) (i : Nat) (hi : i < s.length) :
    ((aggregate_workflow_metrics_st s a_cr t_start t_end a_cm).1.getD i [] =
        s.getD i [] ∧
      (aggregate_workflow_metrics_st s a_cr t_start t_end a_cm).2 =
        dictObjOf (renderWorkflowMetrics (aggregate_workflow_metrics
          (abstractCoffea s a_cr) t_start t_end (abstractCustom s a_cm)))) ∧
    ((calculate_efficiency_metrics_st s a_wf a_wk).1 = s ∧
      (calculate_efficiency_metrics_st s a_wf a_wk).2 =
        dictObjOf (renderEfficiencyMetrics (calculate_efficiency_metrics
          (abstractEffInput s a_wf) (abstractWorker s a_wk)))) ∧
    ((parse_fine_metrics_st s a_m).1 = s ∧
      (parse_fine_metrics_st s a_m).2 =
        dictObjOf (renderFineMetrics
          (parse_fine_metrics (spanOfDictObj (deref s a_m))))) := by
  refine ⟨⟨aggregate_workflow_metrics_st_preserves s a_cr t_start t_end a_cm i hi,
    aggregate_workflow_metrics_st_eq s a_cr t_start t_end a_cm⟩, ⟨?_, ?_⟩, ⟨?_, ?_⟩⟩
  · rw [calculate_efficiency_metrics_st_eq]
  · rw [calculate_efficiency_metrics_st_eq]
  · rw [parse_fine_metrics_st_eq]
  · rw [parse_fine_metrics_st_eq]

/-- Witness for C7 at a concrete store: a coffea report at address 0, a
workflow-metrics dict at address 1, a worker-metrics dict at address 2
and a span dict at address 3; the store is untouched and the results are
the renderings of the pure functions. -/
theorem aggregation_functions_pure_witness :
    (0 : Nat) < ([[(PyKey.str "bytesread", PyV.num 40)],
        [(PyKey.str "wall_time", PyV.num 2)],
        [(PyKey.str "total_cores", PyV.num 3)],
        [(PyKey.tup ["execute", "p", "thread-cpu", "seconds"], PyV.num 5)]] :
          Store).length ∧
    (aggregate_workflow_metrics_st
        [[(PyKey.str "bytesread", PyV.num 40)],
         [(PyKey.str "wall_time", PyV.num 2)],
         [(PyKey.str "total_cores", PyV.num 3)],
         [(PyKey.tup ["execute", "p", "thread-cpu", "seconds"], PyV.num 5)]]
        0 0 10 none).1.getD 0 [] = [(PyKey.str "bytesread", PyV.num 40)] ∧
    (calculate_efficiency_metrics_st
        [[(PyKey.str "bytesread", PyV.num 40)],
         [(PyKey.str "wall_time", PyV.num 2)],
         [(PyKey.str "total_cores", PyV.num 3)],
         [(PyKey.tup ["execute", "p", "thread-cpu", "seconds"], PyV.num 5)]]
        1 2).1 =
      [[(PyKey.str "bytesread", PyV.num 40)],
       [(PyKey.str "wall_time", PyV.num 2)],
       [(PyKey.str "total_cores", PyV.num 3)],
       [(PyKey.tup ["execute", "p", "thread-cpu", "seconds"], PyV.num 5)]] := by
  have h := aggregation_functions_pure
    [[(PyKey.str "bytesread", PyV.num 40)],
     [(PyKey.str "wall_time", PyV.num 2)],
     [(PyKey.str "total_cores", PyV.num 3)],
     [(PyKey.tup ["execute", "p", "thread-cpu", "seconds"], PyV.num 5)]]
    0 0 10 none 1 2 3 0 (by norm_num)
  refine ⟨by norm_num, ?_, h.2.1.1⟩
  rw [h.1.1]
  rfl
